import Mathlib

/- Verification of the Kubelka-Munk paint-mixing engine in
`src/utils/paintMixer.js` of the HuxAndHue repository.  The JS code is
shallowly embedded: JS numbers are modelled as real numbers, JS `null`
as `Option.none`, and the paint database and the CIE tables are
transcribed verbatim as exact decimal rationals. -/

namespace PaintMixer

/- One entry of the paint database.  The `ks` field is the 31-band
absorption/scattering spectrum (400-700nm in 10nm steps). -/
structure Paint where
  id : String
  name : String
  brand : String
  pigmentCode : String
  medium : String
  hex : String
  opacity : Rat
  ks : List Rat
deriving DecidableEq

def titaniumWhite : Paint :=
  { id := "titanium-white", name := "Titanium White", brand := "Golden", pigmentCode := "PW6",
    medium := "acrylic", hex := "#F8F8F5", opacity := 1.0,
    ks := [0.003,0.003,0.003,0.003,0.003,0.003,0.003,0.003,0.003,0.003,0.003,0.003,0.003,0.003,0.003,0.003,0.003,0.003,0.003,0.003,0.003,0.003,0.003,0.003,0.003,0.003,0.003,0.003,0.003,0.003,0.003] }

def zincWhite : Paint :=
  { id := "zinc-white", name := "Zinc White", brand := "Winsor & Newton", pigmentCode := "PW4",
    medium := "oil", hex := "#EFEFE8", opacity := 0.5,
    ks := [0.012,0.012,0.011,0.011,0.010,0.010,0.010,0.010,0.010,0.010,0.010,0.010,0.010,0.010,0.010,0.009,0.009,0.009,0.009,0.009,0.009,0.009,0.009,0.009,0.009,0.009,0.009,0.009,0.009,0.009,0.009] }

def ivoryBlack : Paint :=
  { id := "ivory-black", name := "Ivory Black", brand := "Winsor & Newton", pigmentCode := "PBk9",
    medium := "oil", hex := "#1C1A18", opacity := 1.0,
    ks := [18.5,18.2,17.8,17.5,17.0,16.5,16.0,15.5,15.0,14.5,14.0,13.5,13.0,12.5,12.0,11.5,11.0,10.5,10.0,9.5,9.2,9.0,8.8,8.7,8.6,8.5,8.5,8.5,8.4,8.4,8.3] }

def carbonBlack : Paint :=
  { id := "carbon-black", name := "Carbon Black", brand := "Golden", pigmentCode := "PBk7",
    medium := "acrylic", hex := "#111111", opacity := 1.0,
    ks := [22.0,22.0,22.0,22.0,22.0,22.0,22.0,22.0,22.0,22.0,22.0,22.0,22.0,22.0,22.0,22.0,22.0,22.0,22.0,22.0,22.0,22.0,22.0,22.0,22.0,22.0,22.0,22.0,22.0,22.0,22.0] }

def cadmiumYellowMedium : Paint :=
  { id := "cadmium-yellow-medium", name := "Cadmium Yellow Medium", brand := "Winsor & Newton", pigmentCode := "PY35",
    medium := "oil", hex := "#F5C842", opacity := 1.0,
    ks := [12.0,11.5,10.8,9.5,7.8,5.6,3.2,1.5,0.6,0.25,0.12,0.07,0.05,0.04,0.04,0.04,0.04,0.04,0.04,0.04,0.04,0.04,0.05,0.05,0.06,0.07,0.08,0.10,0.12,0.15,0.18] }

def hansaYellowMedium : Paint :=
  { id := "hansa-yellow-medium", name := "Hansa Yellow Medium", brand := "Golden", pigmentCode := "PY74",
    medium := "acrylic", hex := "#F2C93C", opacity := 0.6,
    ks := [10.5,10.0,9.2,7.8,5.5,3.5,1.8,0.7,0.28,0.12,0.07,0.05,0.04,0.04,0.04,0.04,0.04,0.04,0.04,0.04,0.04,0.05,0.06,0.07,0.08,0.10,0.12,0.15,0.18,0.22,0.26] }

def yellowOchre : Paint :=
  { id := "yellow-ochre", name := "Yellow Ochre", brand := "Daniel Smith", pigmentCode := "PY43",
    medium := "watercolor", hex := "#C8952A", opacity := 0.85,
    ks := [8.0,7.5,6.8,5.5,3.9,2.5,1.4,0.7,0.3,0.15,0.09,0.07,0.06,0.06,0.06,0.07,0.08,0.09,0.10,0.12,0.15,0.18,0.22,0.28,0.35,0.42,0.50,0.58,0.65,0.70,0.73] }

def naplesYellow : Paint :=
  { id := "naples-yellow", name := "Naples Yellow", brand := "Winsor & Newton", pigmentCode := "PY41",
    medium := "oil", hex := "#E8D28A", opacity := 1.0,
    ks := [5.0,4.5,3.8,2.8,1.6,0.9,0.5,0.3,0.18,0.12,0.09,0.07,0.06,0.06,0.06,0.06,0.06,0.06,0.07,0.07,0.08,0.09,0.10,0.12,0.14,0.16,0.19,0.22,0.26,0.30,0.34] }

def indianYellow : Paint :=
  { id := "indian-yellow", name := "Indian Yellow", brand := "Daniel Smith", pigmentCode := "PY153",
    medium := "watercolor", hex := "#E8A820", opacity := 0.4,
    ks := [11.0,10.5,9.5,7.8,5.5,3.2,1.5,0.55,0.18,0.07,0.05,0.04,0.04,0.04,0.04,0.05,0.05,0.06,0.07,0.09,0.11,0.14,0.17,0.21,0.26,0.31,0.36,0.41,0.45,0.49,0.52] }

def cadmiumOrange : Paint :=
  { id := "cadmium-orange", name := "Cadmium Orange", brand := "Winsor & Newton", pigmentCode := "PO20",
    medium := "oil", hex := "#E86010", opacity := 1.0,
    ks := [14.0,13.5,12.8,11.5,9.5,7.0,4.2,2.0,0.8,0.3,0.12,0.07,0.05,0.05,0.05,0.06,0.07,0.08,0.10,0.12,0.15,0.19,0.24,0.30,0.37,0.44,0.50,0.56,0.60,0.63,0.65] }

def pyrroleOrange : Paint :=
  { id := "pyrrole-orange", name := "Pyrrole Orange", brand := "Golden", pigmentCode := "PO73",
    medium := "acrylic", hex := "#E85520", opacity := 0.95,
    ks := [15.5,15.0,14.0,12.5,10.0,7.2,4.0,1.8,0.65,0.22,0.09,0.05,0.05,0.05,0.06,0.07,0.09,0.11,0.14,0.18,0.23,0.29,0.36,0.42,0.48,0.53,0.58,0.62,0.65,0.67,0.68] }

def burntSienna : Paint :=
  { id := "burnt-sienna", name := "Burnt Sienna", brand := "Daniel Smith", pigmentCode := "PBr7",
    medium := "watercolor", hex := "#AA4818", opacity := 0.8,
    ks := [7.0,6.5,5.8,4.8,3.5,2.3,1.3,0.7,0.35,0.18,0.10,0.08,0.07,0.08,0.09,0.11,0.14,0.18,0.23,0.28,0.33,0.38,0.42,0.45,0.48,0.50,0.51,0.52,0.52,0.52,0.52] }

def rawSienna : Paint :=
  { id := "raw-sienna", name := "Raw Sienna", brand := "Winsor & Newton", pigmentCode := "PBr7",
    medium := "oil", hex := "#C87830", opacity := 0.75,
    ks := [5.5,5.0,4.4,3.5,2.3,1.4,0.75,0.38,0.18,0.10,0.07,0.06,0.06,0.07,0.08,0.10,0.13,0.16,0.20,0.25,0.31,0.37,0.43,0.48,0.52,0.55,0.57,0.58,0.59,0.59,0.59] }

def cadmiumRedMedium : Paint :=
  { id := "cadmium-red-medium", name := "Cadmium Red Medium", brand := "Winsor & Newton", pigmentCode := "PR108",
    medium := "oil", hex := "#C82020", opacity := 1.0,
    ks := [13.0,12.5,11.5,9.5,7.0,4.5,2.5,1.2,0.5,0.2,0.09,0.06,0.05,0.05,0.06,0.08,0.11,0.16,0.22,0.30,0.40,0.52,0.63,0.72,0.78,0.82,0.84,0.85,0.85,0.85,0.84] }

def pyrroleRed : Paint :=
  { id := "pyrrole-red", name := "Pyrrole Red", brand := "Golden", pigmentCode := "PR254",
    medium := "acrylic", hex := "#C81818", opacity := 0.95,
    ks := [14.5,14.0,13.0,11.0,8.2,5.2,2.8,1.2,0.45,0.18,0.08,0.06,0.05,0.06,0.07,0.10,0.15,0.22,0.32,0.44,0.57,0.68,0.76,0.81,0.84,0.85,0.85,0.85,0.84,0.83,0.82] }

def quinacridoneRed : Paint :=
  { id := "quinacridone-red", name := "Quinacridone Red", brand := "Daniel Smith", pigmentCode := "PR122",
    medium := "watercolor", hex := "#D02858", opacity := 0.5,
    ks := [12.0,11.5,10.5,8.8,6.5,4.0,2.0,0.85,0.3,0.12,0.06,0.05,0.05,0.06,0.09,0.15,0.24,0.36,0.52,0.68,0.80,0.89,0.93,0.93,0.88,0.78,0.62,0.45,0.31,0.22,0.18] }

def alizarinCrimson : Paint :=
  { id := "alizarin-crimson", name := "Alizarin Crimson", brand := "Winsor & Newton", pigmentCode := "PR83",
    medium := "oil", hex := "#8C1820", opacity := 0.7,
    ks := [9.0,8.8,8.5,7.8,6.5,5.0,3.5,2.2,1.3,0.75,0.42,0.25,0.16,0.12,0.11,0.13,0.18,0.27,0.40,0.56,0.70,0.81,0.87,0.88,0.83,0.72,0.55,0.38,0.25,0.17,0.13] }

def burntUmber : Paint :=
  { id := "burnt-umber", name := "Burnt Umber", brand := "Daniel Smith", pigmentCode := "PBr7",
    medium := "watercolor", hex := "#582810", opacity := 0.9,
    ks := [6.5,6.0,5.5,4.8,3.8,2.8,1.9,1.2,0.75,0.45,0.28,0.18,0.13,0.11,0.11,0.13,0.16,0.21,0.27,0.33,0.38,0.42,0.44,0.45,0.45,0.44,0.43,0.41,0.39,0.38,0.36] }

def rawUmber : Paint :=
  { id := "raw-umber", name := "Raw Umber", brand := "Golden", pigmentCode := "PBr7",
    medium := "acrylic", hex := "#705028", opacity := 0.9,
    ks := [4.5,4.2,3.8,3.2,2.5,1.8,1.2,0.75,0.45,0.28,0.18,0.14,0.12,0.12,0.13,0.15,0.18,0.22,0.27,0.32,0.36,0.39,0.41,0.42,0.42,0.41,0.40,0.38,0.36,0.34,0.32] }

def dioxazinePurple : Paint :=
  { id := "dioxazine-purple", name := "Dioxazine Purple", brand := "Golden", pigmentCode := "PV23",
    medium := "acrylic", hex := "#400878", opacity := 0.95,
    ks := [3.5,3.2,2.8,2.2,1.6,1.0,0.6,0.3,0.15,0.09,0.07,0.08,0.12,0.20,0.32,0.48,0.64,0.76,0.82,0.80,0.70,0.55,0.38,0.24,0.14,0.09,0.07,0.06,0.06,0.06,0.06] }

def quinacridoneViolet : Paint :=
  { id := "quinacridone-violet", name := "Quinacridone Violet", brand := "Daniel Smith", pigmentCode := "PV19",
    medium := "watercolor", hex := "#882060", opacity := 0.45,
    ks := [5.0,4.8,4.4,3.8,3.0,2.2,1.5,0.9,0.5,0.28,0.16,0.12,0.14,0.22,0.38,0.58,0.75,0.86,0.88,0.80,0.65,0.46,0.28,0.16,0.09,0.06,0.05,0.05,0.05,0.06,0.07] }

def ultramarineViolet : Paint :=
  { id := "ultramarine-violet", name := "Ultramarine Violet", brand := "Winsor & Newton", pigmentCode := "PV15",
    medium := "oil", hex := "#503888", opacity := 0.7,
    ks := [4.0,3.7,3.3,2.6,1.9,1.2,0.7,0.38,0.20,0.12,0.09,0.10,0.15,0.26,0.42,0.60,0.74,0.82,0.82,0.74,0.60,0.44,0.28,0.16,0.10,0.07,0.06,0.06,0.07,0.08,0.09] }

def phthaloBlueGs : Paint :=
  { id := "phthalo-blue-gs", name := "Phthalo Blue (Green Shade)", brand := "Golden", pigmentCode := "PB15:3",
    medium := "acrylic", hex := "#183050", opacity := 0.98,
    ks := [2.5,2.2,1.8,1.3,0.85,0.52,0.30,0.18,0.12,0.10,0.12,0.20,0.35,0.56,0.74,0.84,0.85,0.76,0.60,0.42,0.27,0.17,0.11,0.08,0.07,0.07,0.08,0.09,0.10,0.12,0.14] }

def phthaloBlueRs : Paint :=
  { id := "phthalo-blue-rs", name := "Phthalo Blue (Red Shade)", brand := "Daniel Smith", pigmentCode := "PB15:1",
    medium := "watercolor", hex := "#101840", opacity := 0.95,
    ks := [2.8,2.5,2.0,1.5,0.95,0.58,0.32,0.19,0.13,0.11,0.13,0.23,0.42,0.65,0.81,0.87,0.83,0.70,0.53,0.36,0.23,0.15,0.10,0.08,0.08,0.08,0.09,0.10,0.12,0.14,0.16] }

def ultramarineBlue : Paint :=
  { id := "ultramarine-blue", name := "Ultramarine Blue", brand := "Winsor & Newton", pigmentCode := "PB29",
    medium := "oil", hex := "#203860", opacity := 0.85,
    ks := [3.8,3.5,3.0,2.3,1.6,1.0,0.58,0.32,0.18,0.12,0.10,0.12,0.20,0.36,0.56,0.72,0.80,0.78,0.65,0.48,0.32,0.20,0.13,0.09,0.08,0.08,0.09,0.10,0.12,0.15,0.18] }

def ceruleanBlue : Paint :=
  { id := "cerulean-blue", name := "Cerulean Blue", brand := "Daniel Smith", pigmentCode := "PB35",
    medium := "watercolor", hex := "#407898", opacity := 0.7,
    ks := [6.0,5.5,4.8,3.8,2.6,1.6,0.88,0.46,0.24,0.14,0.10,0.10,0.14,0.26,0.44,0.62,0.73,0.74,0.65,0.50,0.36,0.24,0.16,0.12,0.10,0.10,0.11,0.12,0.14,0.16,0.18] }

def prussianBlue : Paint :=
  { id := "prussian-blue", name := "Prussian Blue", brand := "Winsor & Newton", pigmentCode := "PB27",
    medium := "oil", hex := "#102830", opacity := 0.95,
    ks := [4.2,3.8,3.2,2.4,1.6,0.95,0.52,0.27,0.14,0.09,0.08,0.11,0.22,0.42,0.64,0.78,0.78,0.65,0.47,0.30,0.18,0.12,0.09,0.08,0.08,0.10,0.12,0.15,0.18,0.21,0.24] }

def indigoPaint : Paint :=
  { id := "indigo", name := "Indigo", brand := "Daniel Smith", pigmentCode := "PB60",
    medium := "watercolor", hex := "#181830", opacity := 0.9,
    ks := [3.2,3.0,2.6,2.0,1.4,0.85,0.48,0.26,0.14,0.09,0.08,0.10,0.17,0.32,0.52,0.68,0.74,0.70,0.56,0.40,0.26,0.17,0.12,0.09,0.09,0.10,0.12,0.14,0.17,0.20,0.23] }

def cobaltBlue : Paint :=
  { id := "cobalt-blue", name := "Cobalt Blue", brand := "Golden", pigmentCode := "PB28",
    medium := "acrylic", hex := "#285888", opacity := 0.75,
    ks := [5.5,5.0,4.3,3.3,2.2,1.3,0.72,0.38,0.21,0.14,0.12,0.15,0.26,0.45,0.64,0.76,0.78,0.70,0.54,0.38,0.25,0.17,0.12,0.10,0.10,0.11,0.13,0.15,0.17,0.20,0.23] }

def phthaloGreenBs : Paint :=
  { id := "phthalo-green-bs", name := "Phthalo Green (Blue Shade)", brand := "Golden", pigmentCode := "PG7",
    medium := "acrylic", hex := "#083820", opacity := 0.98,
    ks := [3.0,2.7,2.3,1.7,1.1,0.62,0.32,0.16,0.10,0.08,0.10,0.18,0.35,0.58,0.76,0.82,0.76,0.58,0.38,0.22,0.13,0.09,0.08,0.08,0.09,0.11,0.13,0.16,0.19,0.22,0.25] }

def sapGreen : Paint :=
  { id := "sap-green", name := "Sap Green", brand := "Winsor & Newton", pigmentCode := "PY110+PG36",
    medium := "oil", hex := "#385820", opacity := 0.8,
    ks := [5.5,5.0,4.3,3.3,2.2,1.3,0.68,0.32,0.14,0.08,0.07,0.10,0.20,0.38,0.58,0.70,0.68,0.52,0.34,0.20,0.13,0.09,0.08,0.09,0.11,0.14,0.17,0.21,0.25,0.29,0.32] }

def viridian : Paint :=
  { id := "viridian", name := "Viridian", brand := "Daniel Smith", pigmentCode := "PG18",
    medium := "watercolor", hex := "#204838", opacity := 0.65,
    ks := [4.5,4.2,3.6,2.8,1.9,1.1,0.58,0.28,0.14,0.09,0.08,0.12,0.24,0.46,0.66,0.78,0.76,0.60,0.40,0.24,0.15,0.11,0.10,0.10,0.12,0.14,0.17,0.20,0.23,0.26,0.29] }

def chromiumOxideGreen : Paint :=
  { id := "chromium-oxide-green", name := "Chromium Oxide Green", brand := "Golden", pigmentCode := "PG17",
    medium := "acrylic", hex := "#506038", opacity := 0.9,
    ks := [5.0,4.7,4.2,3.4,2.4,1.5,0.82,0.42,0.22,0.14,0.11,0.13,0.22,0.38,0.55,0.64,0.62,0.50,0.36,0.25,0.18,0.14,0.13,0.13,0.14,0.16,0.18,0.21,0.24,0.27,0.30] }

def terreVerte : Paint :=
  { id := "terre-verte", name := "Terre Verte", brand := "Winsor & Newton", pigmentCode := "PG23",
    medium := "oil", hex := "#607860", opacity := 0.6,
    ks := [3.8,3.5,3.1,2.5,1.8,1.1,0.62,0.34,0.20,0.14,0.12,0.14,0.22,0.34,0.46,0.53,0.52,0.44,0.34,0.26,0.21,0.18,0.17,0.17,0.18,0.20,0.22,0.24,0.27,0.29,0.32] }

def PAINT_DATABASE : List Paint := [
  titaniumWhite, zincWhite, ivoryBlack, carbonBlack, cadmiumYellowMedium, hansaYellowMedium, yellowOchre, naplesYellow, indianYellow, cadmiumOrange, pyrroleOrange, burntSienna, rawSienna, cadmiumRedMedium, pyrroleRed, quinacridoneRed, alizarinCrimson, burntUmber, rawUmber, dioxazinePurple, quinacridoneViolet, ultramarineViolet, phthaloBlueGs, phthaloBlueRs, ultramarineBlue, ceruleanBlue, prussianBlue, indigoPaint, cobaltBlue, phthaloGreenBs, sapGreen, viridian, chromiumOxideGreen, terreVerte]


def cieX : List Rat := [0.01741,0.04149,0.09132,0.1788,0.2908,0.3285,0.3482,0.3481,0.3362,0.3187,0.2908,0.2511,0.1954,0.1421,0.09564,0.05795,0.03201,0.01470,0.00490,0.00240,0.00930,0.02910,0.06327,0.1096,0.1655,0.2257,0.2904,0.3597,0.4334,0.5121,0.5945]

def cieY : List Rat := [0.00200,0.00396,0.00800,0.01550,0.02800,0.04500,0.06000,0.07390,0.09098,0.11290,0.13902,0.16930,0.20802,0.25860,0.32306,0.40730,0.50300,0.60820,0.71000,0.79320,0.86200,0.91485,0.95400,0.98030,0.99495,1.00000,0.99500,0.97860,0.95200,0.91540,0.87000]

def cieZ : List Rat := [0.08560,0.20910,0.47860,0.95600,1.76211,2.27200,2.60700,2.84500,2.96100,2.89500,2.60400,2.15200,1.64400,1.21200,0.86500,0.56320,0.35490,0.21420,0.12120,0.06882,0.03748,0.02160,0.01200,0.00680,0.00380,0.00210,0.00110,0.00060,0.00030,0.00020,0.00010]

def d65Table : List Rat := [82.75,91.49,93.43,86.68,104.87,117.01,117.81,114.86,115.92,108.81,109.35,107.80,104.79,107.69,104.41,104.05,100.00,96.33,95.79,88.68,90.01,89.59,87.70,83.29,83.70,80.03,80.21,82.28,78.28,69.72,71.61]

def defaultPaint : Paint :=
  { id := "", name := "", brand := "", pigmentCode := "",
    medium := "", hex := "", opacity := 0, ks := [] }

/- Real-valued lookup into the rational tables, `0` past the end
(JS array indexing stays in bounds in the source: every loop runs over
`i < 31` and every table has 31 entries). -/
noncomputable def cieXr (i : Nat) : Real := (cieX.getD i 0 : Rat)

noncomputable def cieYr (i : Nat) : Real := (cieY.getD i 0 : Rat)

noncomputable def cieZr (i : Nat) : Real := (cieZ.getD i 0 : Rat)

noncomputable def d65r (i : Nat) : Real := (d65Table.getD i 0 : Rat)

noncomputable def ksAt (p : Paint) (i : Nat) : Real := (p.ks.getD i 0 : Rat)

/- `ksToReflectance` from the source:
`if (ks <= 0) return 1.0; const r = 1 + ks - Math.sqrt(ks*ks + 2*ks);`
`return Math.max(0, Math.min(1, r));` -/
noncomputable def ksToReflectance (ks : Real) : Real :=
  if ks ≤ 0 then 1 else max 0 (min 1 (1 + ks - Real.sqrt (ks * ks + 2 * ks)))

/- `reflectanceToKS` from the source:
`if (r <= 0.001) return 100; return (1 - r) * (1 - r) / (2 * r);` -/
noncomputable def reflectanceToKS (r : Real) : Real :=
  if r ≤ 0.001 then 100 else (1 - r) * (1 - r) / (2 * r)

/- A layer passed to `mixPaints`: `{ paint, concentration }`. -/
structure Layer where
  paint : Paint
  concentration : Real

/- `layers.reduce((s, l) => s + l.concentration, 0)`. -/
noncomputable def totalConc (layers : List Layer) : Real :=
  (layers.map fun l => l.concentration).sum

/- `mixPaints` from the source.  The JS double loop accumulates
`mixedKS[i] += c * paint.ks[i]` over the layers, i.e. per band the sum
of the normalised contributions, written here as `List.sum`. -/
noncomputable def mixPaints (layers : List Layer) : Option (List Real) :=
  if layers.length = 0 then none
  else
    let total := totalConc layers
    if total = 0 then none
    else
      let normalised := layers.map fun l => (l.paint, l.concentration / total)
      let mixedKS := (List.range 31).map fun i =>
        (normalised.map fun pc => pc.2 * ksAt pc.1 i).sum
      some (mixedKS.map ksToReflectance)

structure XYZ where
  X : Real
  Y : Real
  Z : Real

structure RGB where
  r : Real
  g : Real
  b : Real

/- `reflectanceToXYZ` from the source. -/
noncomputable def reflectanceToXYZ (reflectance : List Real) : XYZ :=
  let xSum := ((List.range 31).map fun i => reflectance.getD i 0 * cieXr i * d65r i).sum
  let ySum := ((List.range 31).map fun i => reflectance.getD i 0 * cieYr i * d65r i).sum
  let zSum := ((List.range 31).map fun i => reflectance.getD i 0 * cieZr i * d65r i).sum
  let nSum := ((List.range 31).map fun i => cieYr i * d65r i).sum
  { X := xSum / nSum, Y := ySum / nSum, Z := zSum / nSum }

/- The linear-RGB matrix rows inside `xyzToSRGB`. -/
noncomputable def linearRGB (c : XYZ) : RGB :=
  { r := 3.2404542 * c.X - 1.5371385 * c.Y - 0.4985314 * c.Z,
    g := -0.9692660 * c.X + 1.8760108 * c.Y + 0.0415560 * c.Z,
    b := 0.0556434 * c.X - 0.2040259 * c.Y + 1.0572252 * c.Z }

/- `const gamma = v => v <= 0.0031308 ? 12.92*v : 1.055*Math.pow(v, 1/2.4) - 0.055`. -/
noncomputable def gammaEnc (v : Real) : Real :=
  if v ≤ 0.0031308 then 12.92 * v else 1.055 * v ^ ((1 : Real) / 2.4) - 0.055

noncomputable def clamp01 (x : Real) : Real := max 0 (min 1 x)

/- `xyzToSRGB` from the source: each channel is gamma-encoded and then
clamped by `Math.max(0, Math.min(1, gamma(v)))`. -/
noncomputable def xyzToSRGB (c : XYZ) : RGB :=
  let l := linearRGB c
  { r := clamp01 (gammaEnc l.r), g := clamp01 (gammaEnc l.g), b := clamp01 (gammaEnc l.b) }

/- `Math.round` on a non-negative JS number: floor of x + 1/2. -/
noncomputable def roundJS (x : Real) : Int := Int.floor (x + 1 / 2)

/- `v => Math.round(v*255).toString(16).padStart(2, '0')`. -/
noncomputable def hexByteStr (x : Real) : String :=
  let s := String.mk (Nat.toDigits 16 (roundJS (x * 255)).toNat)
  if s.length < 2 then "0" ++ s else s

noncomputable def srgbToHex (c : RGB) : String :=
  "#" ++ hexByteStr c.r ++ hexByteStr c.g ++ hexByteStr c.b

/- Value of one hexadecimal digit, as `parseInt(-, 16)` reads it.
The JS source yields NaN on a malformed digit; NaN lies outside the
real-number model, so a malformed digit is read as 0 here. -/
def hexDigitVal (c : Char) : Nat :=
  if '0' ≤ c ∧ c ≤ '9' then c.toNat - '0'.toNat
  else if 'a' ≤ c ∧ c ≤ 'f' then c.toNat - 'a'.toNat + 10
  else if 'A' ≤ c ∧ c ≤ 'F' then c.toNat - 'A'.toNat + 10
  else 0

/- `parseInt(hex.slice(i, i+2), 16)`. -/
def hexPairVal (s : String) (i : Nat) : Nat :=
  16 * hexDigitVal (s.toList.getD i '0') + hexDigitVal (s.toList.getD (i + 1) '0')

/- The reverse gamma inside `hexToKS`. -/
noncomputable def linearizeChan (v : Real) : Real :=
  if v ≤ 0.04045 then v / 12.92 else ((v + 0.055) / 1.055) ^ ((2.4 : Real))

/- `hexToKS` from the source, including the `|| 1` guard on the total
tent weight and the clamp of the reflectance into [0.01, 0.99]. -/
noncomputable def hexToKS (hex : String) : List Real :=
  let r := (hexPairVal hex 1 : Real) / 255
  let g := (hexPairVal hex 3 : Real) / 255
  let b := (hexPairVal hex 5 : Real) / 255
  let rl := linearizeChan r
  let gl := linearizeChan g
  let bl := linearizeChan b
  let spectrum := (List.range 31).map fun i =>
    let band := (i : Real) / 30
    let bw := max 0 (1 - |band - 0.1| * 5)
    let gw := max 0 (1 - |band - 0.5| * 4)
    let rw := max 0 (1 - |band - 0.9| * 5)
    let total := bw + gw + rw
    let total := if total = 0 then 1 else total
    let ref := (rl * rw + gl * gw + bl * bw) / total
    max 0.01 (min 0.99 ref)
  spectrum.map reflectanceToKS

/- `spectralDistance` from the source. -/
noncomputable def spectralDistance (a b : List Real) : Real :=
  ((List.range 31).map fun i =>
    (1 + cieYr i * 2) * ((a.getD i 0 - b.getD i 0) * (a.getD i 0 - b.getD i 0))).sum

/- A pigment's own reflectance spectrum, `paint.ks.map(ks => ksToReflectance(ks))`. -/
noncomputable def paintRefl (p : Paint) : List Real :=
  p.ks.map fun q => ksToReflectance (q : Rat)

/- One entry of `recipe.paints`; the source names the second field `ratio`. -/
structure RecipePaint where
  paint : Paint
  percent : Int

structure Recipe where
  paints : List RecipePaint
  distance : Real
  hex : String

/- Options of `findMixingRecipe` (defaults: medium null, 3, 3). -/
structure MixOptions where
  medium : Option String
  maxPaints : Nat
  topResults : Nat

/- `medium ? PAINT_DATABASE.filter(p => p.medium === medium) : PAINT_DATABASE`. -/
def poolFor (db : List Paint) (medium : Option String) : List Paint :=
  match medium with
  | some m => db.filter fun p => decide (p.medium = m)
  | none => db

noncomputable def mkSingleRecipe (targetRef : List Real) (p : Paint) : Recipe :=
  let pr := paintRefl p
  { paints := [{ paint := p, percent := 100 }],
    distance := spectralDistance targetRef pr,
    hex := srgbToHex (xyzToSRGB (reflectanceToXYZ pr)) }

/- The fixed ratio grid of the pair pass. -/
noncomputable def pairSplits : List Real := [0.2, 0.33, 0.5, 0.67, 0.8]

/- One pair candidate: mix at concentrations `ratio` and `1 - ratio`;
`if (!mixRef) continue` is the `Option.map`. -/
noncomputable def mkPairRecipe (targetRef : List Real) (p1 p2 : Paint) (rho : Real) :
    Option Recipe :=
  (mixPaints [{ paint := p1, concentration := rho },
              { paint := p2, concentration := 1 - rho }]).map fun mixRef =>
    let r1 := roundJS (rho * 100)
    { paints := [{ paint := p1, percent := r1 }, { paint := p2, percent := 100 - r1 }],
      distance := spectralDistance targetRef mixRef,
      hex := srgbToHex (xyzToSRGB (reflectanceToXYZ mixRef)) }

noncomputable def pairRecipes (targetRef : List Real) (p1 p2 : Paint) : List Recipe :=
  pairSplits.filterMap (mkPairRecipe targetRef p1 p2)

/- The double loop `for i; for j > i` of the pair pass over the ranked
candidate prefix (each candidate is a `{paint, dist}` record). -/
noncomputable def pairPass (targetRef : List Real) : List (Paint × Real) → List Recipe
  | [] => []
  | c :: rest => (rest.flatMap fun c2 => pairRecipes targetRef c.1 c2.1) ++ pairPass targetRef rest

/- One triple candidate at the fixed 50/30/20 split. -/
noncomputable def mkTripleRecipe (targetRef : List Real) (p1 p2 p3 : Paint) : List Recipe :=
  ((mixPaints [{ paint := p1, concentration := 0.5 },
               { paint := p2, concentration := 0.3 },
               { paint := p3, concentration := 0.2 }]).map fun mixRef =>
    { paints := [{ paint := p1, percent := 50 }, { paint := p2, percent := 30 },
                 { paint := p3, percent := 20 }],
      distance := spectralDistance targetRef mixRef,
      hex := srgbToHex (xyzToSRGB (reflectanceToXYZ mixRef)) }).toList

/- The triple loop `i < min 6, j in (i, min 8), k in (j, min 10)`. -/
noncomputable def triplePass (targetRef : List Real) (cands : List (Paint × Real)) :
    List Recipe :=
  (List.range (min 6 cands.length)).flatMap fun i =>
    (List.range (min 8 cands.length)).flatMap fun j =>
      if i < j then
        (List.range (min 10 cands.length)).flatMap fun k =>
          if j < k then
            mkTripleRecipe targetRef (cands.getD i (defaultPaint, 0)).1
              (cands.getD j (defaultPaint, 0)).1 (cands.getD k (defaultPaint, 0)).1
          else []
      else []

/- The full `results` list pushed by the three passes, before sorting.
`scored` is the pool ranked by individual distance (a stable ascending
sort, as JS `Array.prototype.sort`), `candidates` its 12-element prefix. -/
noncomputable def resultsListIn (db : List Paint) (targetHex : String) (opts : MixOptions) :
    List Recipe :=
  let pool := poolFor db opts.medium
  let targetKS := hexToKS targetHex
  let targetRef := targetKS.map ksToReflectance
  let singles := pool.map (mkSingleRecipe targetRef)
  let scored := (pool.map fun p => (p, spectralDistance targetRef (paintRefl p))).mergeSort
    (fun a b => decide (a.2 ≤ b.2))
  let candidates := scored.take (min 12 scored.length)
  let pairs := pairPass targetRef candidates
  let triples :=
    if 3 ≤ opts.maxPaints ∧ 3 ≤ candidates.length then triplePass targetRef candidates else []
  singles ++ pairs ++ triples

/- `r.paints.map(p => p.paint.id).sort().join('+')`. -/
noncomputable def recipeKey (r : Recipe) : String :=
  String.intercalate "+" ((r.paints.map fun rp => rp.paint.id).mergeSort
    (fun a b => decide (a ≤ b)))

/- The dedup loop: walk the sorted results, keep the first recipe of
each key, and stop as soon as `unique.length >= topResults`; the `seen`
set is carried as the list of keys already kept, so `seen.length` is
`unique.length`. -/
noncomputable def dedupGo (n : Nat) : List Recipe → List String → List Recipe
  | [], _ => []
  | r :: rest, seen =>
    if recipeKey r ∈ seen then
      if n ≤ seen.length then [] else dedupGo n rest seen
    else
      r :: (if n ≤ seen.length + 1 then [] else dedupGo n rest (recipeKey r :: seen))

/- The comparator `(a, b) => a.distance - b.distance`. -/
noncomputable def recipeLE : Recipe → Recipe → Bool :=
  fun a b => decide (a.distance ≤ b.distance)

/- `findMixingRecipe`, parametrised by the database (the source closes
over the module-level `PAINT_DATABASE`; see `findMixingRecipe` below). -/
noncomputable def findMixingRecipeIn (db : List Paint) (targetHex : String)
    (opts : MixOptions) : List Recipe :=
  let pool := poolFor db opts.medium
  if pool.length = 0 then []
  else dedupGo opts.topResults ((resultsListIn db targetHex opts).mergeSort recipeLE) []

noncomputable def findMixingRecipe (targetHex : String) (opts : MixOptions) : List Recipe :=
  findMixingRecipeIn PAINT_DATABASE targetHex opts

/- A layer passed to `simulateMix`: `{ paintId, concentration }` with
concentration on the 0-100 scale. -/
structure SimLayer where
  paintId : String
  concentration : Real

structure SimResult where
  hex : String
  reflectance : List Real
  xyz : XYZ
  srgb : RGB

/- The resolve-and-filter step of `simulateMix`: look each `paintId` up
in the database, divide the concentration by 100, and drop layers whose
paint is missing or whose concentration is not strictly positive. -/
noncomputable def resolveLayers (layers : List SimLayer) : List Layer :=
  layers.filterMap fun l =>
    (PAINT_DATABASE.find? fun p => decide (p.id = l.paintId)).bind fun p =>
      if (0 : Real) < l.concentration / 100 then
        some { paint := p, concentration := l.concentration / 100 }
      else none

/- `simulateMix` from the source. -/
noncomputable def simulateMix (layers : List SimLayer) : Option SimResult :=
  let resolved := resolveLayers layers
  if resolved.length = 0 then none
  else
    match mixPaints resolved with
    | none => none
    | some reflectance =>
      let xyz := reflectanceToXYZ reflectance
      let srgb := xyzToSRGB xyz
      some { hex := srgbToHex srgb, reflectance := reflectance, xyz := xyz, srgb := srgb }

/- The claim-side closed form of the mixing step: the concentration of
every layer normalised by the total, then per band the weighted sum of
the layers' K/S ratios. -/
noncomputable def kMix (layers : List Layer) (i : Nat) : Real :=
  (layers.map fun l => l.concentration / totalConc layers * ksAt l.paint i).sum

theorem ksAt_nonneg (p : Paint) (h : ∀ q ∈ p.ks, (0 : Rat) ≤ q) (i : Nat) :
    0 ≤ ksAt p i := by
  rw [ksAt]
  rcases lt_or_le i p.ks.length with hi | hi
  · have : p.ks.getD i 0 ∈ p.ks := by
      rw [List.getD_eq_getElem p.ks 0 hi]
      exact List.getElem_mem hi
    exact_mod_cast h _ this
  · rw [List.getD_eq_default p.ks 0 hi]
    norm_num

theorem ksToReflectance_of_nonneg (k : Real) (hk : 0 ≤ k) :
    ksToReflectance k = max 0 (min 1 (1 + k - Real.sqrt (k ^ 2 + 2 * k))) := by
  rcases eq_or_lt_of_le hk with h | h
  · rw [ksToReflectance, if_pos (le_of_eq h.symm), ← h]
    simp [Real.sqrt_eq_zero]
  · rw [ksToReflectance, if_neg (not_le.mpr h)]
    have : k * k + 2 * k = k ^ 2 + 2 * k := by ring
    rw [this]

theorem resolveLayers_pos (layers : List SimLayer) :
    ∀ l ∈ resolveLayers layers, 0 < l.concentration := by
  intro l hl
  rw [resolveLayers] at hl
  rcases List.mem_filterMap.mp hl with ⟨sl, _, hsl⟩
  rw [Option.bind_eq_some] at hsl
  rcases hsl with ⟨p, _, hif⟩
  by_cases hc : (0 : Real) < sl.concentration / 100
  · rw [if_pos hc, Option.some_inj] at hif
    subst hif
    exact hc
  · rw [if_neg hc] at hif
    exact absurd hif (by simp)

theorem mixPaints_isSome_of_pos (layers : List Layer) (hne : layers ≠ [])
    (hpos : ∀ l ∈ layers, 0 < l.concentration) : mixPaints layers ≠ none := by
  have htot : 0 < totalConc layers := by
    apply List.sum_pos
    · intro x hx
      rcases List.mem_map.mp hx with ⟨l, hl, rfl⟩
      exact hpos l hl
    · simpa using hne
  rw [mixPaints]
  rw [if_neg (by simpa using hne), if_neg htot.ne.symm]
  simp

theorem simulateMix_none_iff (layers : List SimLayer) :
    simulateMix layers = none ↔ resolveLayers layers = [] := by
  rw [simulateMix]
  by_cases h0 : (resolveLayers layers).length = 0
  · simp [h0, List.length_eq_zero.mp h0]
  · rw [if_neg h0]
    have hne : resolveLayers layers ≠ [] := by
      intro h
      exact h0 (by simp [h])
    have hsome := mixPaints_isSome_of_pos (resolveLayers layers) hne (resolveLayers_pos layers)
    rcases hmix : mixPaints (resolveLayers layers) with _ | refl
    · exact absurd hmix hsome
    · simp [hne]

/-- C7: for every reflectance R in (0.001, 1] the ratio/reflectance round
trip `ksToReflectance (reflectanceToKS R)` returns R exactly (so within
any small tolerance), while for R ≤ 0.001 `reflectanceToKS` returns the
fixed floor value 100, making the round trip intentionally lossy there. -/
theorem c7_round_trip (R : Real) :
    (0.001 < R → R ≤ 1 → ksToReflectance (reflectanceToKS R) = R) ∧
    (R ≤ 0.001 → reflectanceToKS R = 100) := by
  constructor
  · intro h1 h2
    have hR : 0 < R := lt_trans (by norm_num) h1
    rw [reflectanceToKS, if_neg (not_le.mpr h1)]
    rcases eq_or_lt_of_le h2 with heq | hlt
    · rw [heq]
      norm_num [ksToReflectance]
    · have hkpos : 0 < (1 - R) * (1 - R) / (2 * R) := by
        apply div_pos
        · have : 0 < 1 - R := by linarith
          exact mul_pos this this
        · linarith
      rw [ksToReflectance, if_neg (not_le.mpr hkpos)]
      have hsq : (1 - R) * (1 - R) / (2 * R) * ((1 - R) * (1 - R) / (2 * R)) +
          2 * ((1 - R) * (1 - R) / (2 * R)) = ((1 - R ^ 2) / (2 * R)) ^ 2 := by
        field_simp
        ring
      have hnum : (0 : Real) ≤ (1 - R ^ 2) / (2 * R) := by
        apply div_nonneg
        · nlinarith
        · linarith
      rw [hsq, Real.sqrt_sq hnum]
      have hval : 1 + (1 - R) * (1 - R) / (2 * R) - (1 - R ^ 2) / (2 * R) = R := by
        field_simp
        ring
      rw [hval, min_eq_right h2, max_eq_right (le_of_lt hR)]
  · intro h
    rw [reflectanceToKS, if_pos h]

/-- C7 witness: the round trip is the identity at R = 1/2, and the floor
value 100 is returned at R = 1/4000. -/
theorem c7_round_trip_witness :
    ksToReflectance (reflectanceToKS (1 / 2)) = 1 / 2 ∧ reflectanceToKS (1 / 4000) = 100 :=
  ⟨(c7_round_trip (1 / 2)).1 (by norm_num) (by norm_num),
   (c7_round_trip (1 / 4000)).2 (by norm_num)⟩

/-- C3 counterexample: a layer list with total concentration -1 (strictly
negative) is not rejected: `mixPaints` returns a spectrum, not `none`,
contradicting the claim that a negative total yields no result. -/
theorem c3_counterexample :
    totalConc [{ paint := titaniumWhite, concentration := -1 }] < 0 ∧
    mixPaints [{ paint := titaniumWhite, concentration := -1 }] ≠ none := by
  constructor
  · simp [totalConc]
  · rw [mixPaints]
    norm_num [totalConc]
    exact Option.some_ne_none _

/-- C3 (amended): `mixPaints` returns `none` exactly when the layer list
is empty or the total concentration is exactly zero (a negative total is
processed normally); both `mixPaints` and the direct-mix path
`simulateMix` are total functions that return `none` rather than
raising, and `simulateMix` returns `none` exactly when no resolvable
layer with positive concentration remains. -/
theorem c3_none_iff :
    (∀ layers : List Layer, mixPaints layers = none ↔ layers = [] ∨ totalConc layers = 0) ∧
    (∀ layers : List SimLayer, simulateMix layers = none ↔ resolveLayers layers = []) := by
  constructor
  · intro layers
    rw [mixPaints]
    by_cases h0 : layers.length = 0
    · simp [h0, List.length_eq_zero.mp h0]
    · have hne : layers ≠ [] := fun h => h0 (by simp [h])
      by_cases ht : totalConc layers = 0 <;> simp [h0, ht, hne]
  · intro layers
    exact simulateMix_none_iff layers

/-- C6: `mixPaints` is invariant under scaling every concentration by the
same positive factor, so only relative weights matter; in particular
[(A,2),(B,2)], [(A,0.5),(B,0.5)] and [(A,1),(B,1)] mix identically. -/
theorem c6_scale_invariant (layers : List Layer) (lam : Real) (hlam : 0 < lam) :
    mixPaints (layers.map fun l => { paint := l.paint, concentration := lam * l.concentration })
      = mixPaints layers := by
  rw [mixPaints, mixPaints]
  simp only [List.length_map]
  by_cases h0 : layers.length = 0
  · rw [if_pos h0, if_pos h0]
  · have htot : totalConc (layers.map fun l =>
        ({ paint := l.paint, concentration := lam * l.concentration } : Layer)) =
        lam * totalConc layers := by
      rw [totalConc, totalConc, List.map_map]
      exact List.sum_map_mul_left layers (fun l => l.concentration) lam
    rw [if_neg h0, if_neg h0]
    simp only [htot]
    by_cases ht : totalConc layers = 0
    · simp [ht]
    · have hlt : lam * totalConc layers ≠ 0 := mul_ne_zero hlam.ne.symm ht
      rw [if_neg hlt, if_neg ht]
      have hnorm : (layers.map fun l =>
          ({ paint := l.paint, concentration := lam * l.concentration } : Layer)).map
            (fun l => (l.paint, l.concentration / (lam * totalConc layers))) =
          layers.map (fun l => (l.paint, l.concentration / totalConc layers)) := by
        rw [List.map_map]
        apply List.map_congr_left
        intro l _
        simp only [Function.comp]
        rw [mul_div_mul_left l.concentration (totalConc layers) hlam.ne.symm]
      simp only [hnorm]

/-- C6 witness: doubling both concentrations of a two-layer mixture of
titanium white and yellow ochre leaves the result unchanged. -/
theorem c6_scale_invariant_witness :
    mixPaints (([{ paint := titaniumWhite, concentration := 1 },
                 { paint := yellowOchre, concentration := 1 }] : List Layer).map fun l =>
      { paint := l.paint, concentration := 2 * l.concentration }) =
    mixPaints [{ paint := titaniumWhite, concentration := 1 },
               { paint := yellowOchre, concentration := 1 }] :=
  c6_scale_invariant _ 2 (by norm_num)

/-- C1: on a non-empty mixture whose layers have positive concentrations
and non-negative K/S data (the Mixture and Pigment data-model
invariants), the total concentration is positive and `mixPaints`
normalises each concentration by the total, forms per band the
concentration-weighted sum k of the layers' K/S ratios, and returns
R = 1 + k - sqrt(k^2 + 2k) clamped to [0,1] for each of the 31 bands. -/
theorem c1_mixPaints_formula (layers : List Layer) (hne : layers ≠ [])
    (hc : ∀ l ∈ layers, 0 < l.concentration)
    (hks : ∀ l ∈ layers, ∀ q ∈ l.paint.ks, (0 : Rat) ≤ q) :
    0 < totalConc layers ∧
    mixPaints layers = some ((List.range 31).map fun i =>
      max 0 (min 1 (1 + kMix layers i - Real.sqrt (kMix layers i ^ 2 + 2 * kMix layers i)))) := by
  have htot : 0 < totalConc layers := by
    apply List.sum_pos
    · intro x hx
      rcases List.mem_map.mp hx with ⟨l, hl, rfl⟩
      exact hc l hl
    · simpa using hne
  refine ⟨htot, ?_⟩
  rw [mixPaints]
  simp only [if_neg (show ¬layers.length = 0 by simpa using hne), if_neg htot.ne',
    Option.some_inj]
  rw [List.map_map]
  apply List.map_congr_left
  intro i _
  simp only [Function.comp_apply]
  have hmix : ((layers.map fun l => (l.paint, l.concentration / totalConc layers)).map
      fun pc => pc.2 * ksAt pc.1 i).sum = kMix layers i := by
    rw [List.map_map, kMix]
    rfl
  rw [hmix]
  apply ksToReflectance_of_nonneg
  apply List.sum_nonneg
  intro x hx
  rcases List.mem_map.mp hx with ⟨l, hl, rfl⟩
  have h1 : 0 ≤ l.concentration / totalConc layers :=
    div_nonneg (le_of_lt (hc l hl)) (le_of_lt htot)
  exact mul_nonneg h1 (ksAt_nonneg l.paint (hks l hl) i)

/-- C1 witness: the formula evaluated on the single-layer mixture of
titanium white at concentration 1. -/
theorem c1_mixPaints_formula_witness :
    0 < totalConc [{ paint := titaniumWhite, concentration := 1 }] ∧
    mixPaints [{ paint := titaniumWhite, concentration := 1 }] =
      some ((List.range 31).map fun i =>
        max 0 (min 1 (1 + kMix [{ paint := titaniumWhite, concentration := 1 }] i -
          Real.sqrt (kMix [{ paint := titaniumWhite, concentration := 1 }] i ^ 2 +
            2 * kMix [{ paint := titaniumWhite, concentration := 1 }] i)))) := by
  apply c1_mixPaints_formula
  · simp
  · intro l hl
    rw [List.mem_singleton] at hl
    rw [hl]
    norm_num
  · intro l hl
    rw [List.mem_singleton] at hl
    subst hl
    show ∀ q ∈ titaniumWhite.ks, (0 : Rat) ≤ q
    simp only [titaniumWhite, List.forall_mem_cons, List.not_mem_nil]
    norm_num

/-- C9: when the medium filter leaves the candidate pool empty,
`findMixingRecipe` returns the empty list (and, as a total function,
raises no error). -/
theorem c9_empty_pool (targetHex : String) (opts : MixOptions)
    (h : poolFor PAINT_DATABASE opts.medium = []) :
    findMixingRecipe targetHex opts = [] := by
  rw [findMixingRecipe, findMixingRecipeIn]
  simp [h]

/-- C9 witness: the medium "gouache" (accepted by the options but absent
from the database) empties the pool. -/
theorem c9_empty_pool_witness :
    poolFor PAINT_DATABASE (some "gouache") = [] ∧
    findMixingRecipe "#aabbcc" { medium := some "gouache", maxPaints := 3, topResults := 3 } = [] :=
  ⟨by decide, c9_empty_pool _ _ (by decide)⟩

theorem clamp01_nonneg (x : Real) : 0 ≤ clamp01 x := le_max_left 0 _

theorem clamp01_le_one (x : Real) : clamp01 x ≤ 1 := max_le (by norm_num) (min_le_left 1 x)

theorem gammaEnc_mem_unit (v : Real) (h0 : 0 ≤ v) (h1 : v ≤ 1) :
    0 ≤ gammaEnc v ∧ gammaEnc v ≤ 1 := by
  rw [gammaEnc]
  by_cases hth : v ≤ 0.0031308
  · rw [if_pos hth]
    constructor
    · nlinarith
    · nlinarith
  · rw [if_neg hth]
    have hv : (0.0031308 : Real) < v := not_le.mp hth
    have hvpos : (0 : Real) < v := lt_trans (by norm_num) hv
    constructor
    · have hkey : (0.055 / 1.055 : Real) ≤ v ^ ((1 : Real) / 2.4) := by
        by_contra hlt
        push_neg at hlt
        have hrp0 : (0 : Real) ≤ v ^ ((1 : Real) / 2.4) :=
          Real.rpow_nonneg (le_of_lt hvpos) _
        have hpow : (v ^ ((1 : Real) / 2.4)) ^ (12 : Nat) < (0.055 / 1.055 : Real) ^ (12 : Nat) :=
          pow_lt_pow_left₀ hlt hrp0 (by norm_num)
        have hv5 : (v ^ ((1 : Real) / 2.4)) ^ (12 : Nat) = v ^ (5 : Nat) := by
          rw [← Real.rpow_natCast (v ^ ((1 : Real) / 2.4)) 12, ← Real.rpow_mul hvpos.le]
          rw [show (1 : Real) / 2.4 * ((12 : Nat) : Real) = ((5 : Nat) : Real) by norm_num]
          rw [Real.rpow_natCast]
        rw [hv5] at hpow
        have hth5 : (0.0031308 : Real) ^ (5 : Nat) < v ^ (5 : Nat) :=
          pow_lt_pow_left₀ hv (by norm_num) (by norm_num)
        have hcmp : (0.055 / 1.055 : Real) ^ (12 : Nat) ≤ (0.0031308 : Real) ^ (5 : Nat) := by
          norm_num
        linarith
      nlinarith [hkey]
    · have hle1 : v ^ ((1 : Real) / 2.4) ≤ 1 :=
        Real.rpow_le_one (le_of_lt hvpos) h1 (by norm_num)
      nlinarith

theorem clamp01_gammaEnc_comm (v : Real) : clamp01 (gammaEnc v) = gammaEnc (clamp01 v) := by
  rcases le_or_lt v 0 with h0 | h0
  · have hcl : clamp01 v = 0 := by
      rw [clamp01, min_eq_right (le_trans h0 (by norm_num)), max_eq_left h0]
    have hg0 : gammaEnc 0 = 0 := by
      rw [gammaEnc, if_pos (by norm_num)]
      ring
    rw [hcl, hg0, gammaEnc, if_pos (le_trans h0 (by norm_num))]
    rw [clamp01, min_eq_right (by nlinarith), max_eq_left (by nlinarith)]
  · rcases le_or_lt v 1 with h1 | h1
    · have hcl : clamp01 v = v := by
        rw [clamp01, min_eq_right h1, max_eq_right h0.le]
      obtain ⟨hga, hgb⟩ := gammaEnc_mem_unit v h0.le h1
      rw [hcl, clamp01, min_eq_right hgb, max_eq_right hga]
    · have hcl : clamp01 v = 1 := by
        rw [clamp01, min_eq_left h1.le, max_eq_right (show (0 : Real) ≤ 1 by norm_num)]
      have hg1 : gammaEnc 1 = 1 := by
        rw [gammaEnc, if_neg (by norm_num), Real.one_rpow]
        ring
      have hge : 1 ≤ gammaEnc v := by
        rw [gammaEnc, if_neg (not_le.mpr (lt_trans (by norm_num) h1))]
        have hone : (1 : Real) ≤ v ^ ((1 : Real) / 2.4) := by
          have hmono := Real.rpow_le_rpow (show (0 : Real) ≤ 1 by norm_num) h1.le
            (show (0 : Real) ≤ 1 / 2.4 by norm_num)
          rwa [Real.one_rpow] at hmono
        nlinarith
      rw [hcl, hg1, clamp01, min_eq_left hge,
        max_eq_right (show (0 : Real) ≤ 1 by norm_num)]

/-- C8: the spectrum-to-display conversion is total and saturating: for
every 31-band real-valued input, each channel of
`xyzToSRGB (reflectanceToXYZ reflectance)` lies in [0,1] and equals the
piecewise sRGB gamma encoding applied to the linear-RGB channel clamped
to [0,1]. -/
theorem c8_display_conversion_total (reflectance : List Real) :
    (0 ≤ (xyzToSRGB (reflectanceToXYZ reflectance)).r ∧
      (xyzToSRGB (reflectanceToXYZ reflectance)).r ≤ 1) ∧
    (0 ≤ (xyzToSRGB (reflectanceToXYZ reflectance)).g ∧
      (xyzToSRGB (reflectanceToXYZ reflectance)).g ≤ 1) ∧
    (0 ≤ (xyzToSRGB (reflectanceToXYZ reflectance)).b ∧
      (xyzToSRGB (reflectanceToXYZ reflectance)).b ≤ 1) ∧
    (xyzToSRGB (reflectanceToXYZ reflectance)).r
        = gammaEnc (clamp01 (linearRGB (reflectanceToXYZ reflectance)).r) ∧
    (xyzToSRGB (reflectanceToXYZ reflectance)).g
        = gammaEnc (clamp01 (linearRGB (reflectanceToXYZ reflectance)).g) ∧
    (xyzToSRGB (reflectanceToXYZ reflectance)).b
        = gammaEnc (clamp01 (linearRGB (reflectanceToXYZ reflectance)).b) :=
  ⟨⟨clamp01_nonneg _, clamp01_le_one _⟩, ⟨clamp01_nonneg _, clamp01_le_one _⟩,
   ⟨clamp01_nonneg _, clamp01_le_one _⟩, clamp01_gammaEnc_comm _, clamp01_gammaEnc_comm _,
   clamp01_gammaEnc_comm _⟩

/- The validity test of a `simulateMix` layer: its paint id resolves in
the database and its concentration is strictly positive. -/
noncomputable def isValidSimLayer (l : SimLayer) : Bool :=
  (PAINT_DATABASE.find? fun p => decide (p.id = l.paintId)).isSome
    && decide ((0 : Real) < l.concentration)

theorem div100_pos_iff (c : Real) : 0 < c / 100 ↔ 0 < c := by
  constructor
  · intro h
    have h2 := mul_pos h (show (0 : Real) < 100 by norm_num)
    rwa [div_mul_cancel₀ c (by norm_num : (100 : Real) ≠ 0)] at h2
  · intro h
    exact div_pos h (by norm_num)

theorem filterMap_filter_of_none {α β : Type} (f : α → Option β) (p : α → Bool)
    (h : ∀ a, p a = false → f a = none) (l : List α) :
    (l.filter p).filterMap f = l.filterMap f := by
  induction l with
  | nil => rfl
  | cons a t ih =>
    by_cases hp : p a = true
    · rw [List.filter_cons, if_pos hp]
      cases hfa : f a with
      | none => rw [List.filterMap_cons_none hfa, List.filterMap_cons_none hfa, ih]
      | some b => rw [List.filterMap_cons_some hfa, List.filterMap_cons_some hfa, ih]
    · have hp2 : p a = false := by simpa using hp
      rw [List.filter_cons, if_neg (by simp [hp2])]
      rw [List.filterMap_cons_none (h a hp2), ih]

theorem resolveLayers_filter (layers : List SimLayer) :
    resolveLayers (layers.filter isValidSimLayer) = resolveLayers layers := by
  rw [resolveLayers, resolveLayers]
  apply filterMap_filter_of_none
  intro a ha
  rw [isValidSimLayer] at ha
  rcases hfind : PAINT_DATABASE.find? (fun p => decide (p.id = a.paintId)) with _ | p
  · rw [hfind]
    rfl
  · rw [hfind] at ha
    have hc : ¬ (0 : Real) < a.concentration := by
      intro hlt
      rw [Option.isSome_some, Bool.true_and, decide_eq_false_iff_not] at ha
      exact ha hlt
    rw [hfind]
    show (if (0 : Real) < a.concentration / 100 then
      some ({ paint := p, concentration := a.concentration / 100 } : Layer) else none) = none
    rw [if_neg (fun hcc => hc ((div100_pos_iff a.concentration).mp hcc))]

/-- C10: `simulateMix` silently drops every layer whose paint id is
unknown or whose concentration is not strictly positive: its result is
computed from the remaining valid layers alone (dropping invalid layers
does not change the result), and it returns `none` exactly when no
valid layer remains; being a total function it raises nothing. -/
theorem c10_simulateMix_invalid_layers (layers : List SimLayer) :
    (simulateMix layers = none ↔ layers.filter isValidSimLayer = []) ∧
    simulateMix layers = simulateMix (layers.filter isValidSimLayer) := by
  have hres := resolveLayers_filter layers
  constructor
  · rw [simulateMix_none_iff, ← hres]
    constructor
    · intro h
      rcases hL : layers.filter isValidSimLayer with _ | ⟨a, t⟩
      · rfl
      · exfalso
        have ha : isValidSimLayer a = true := by
          have hmem : a ∈ layers.filter isValidSimLayer := by
            rw [hL]
            exact List.mem_cons_self a t
          exact (List.mem_filter.mp hmem).2
        rw [hL, resolveLayers] at h
        have hnone := (List.filterMap_eq_nil_iff.mp h) a (List.mem_cons_self a t)
        rw [isValidSimLayer] at ha
        rcases hfind : PAINT_DATABASE.find? (fun p => decide (p.id = a.paintId)) with _ | p
        · rw [hfind] at ha
          simp at ha
        · have hc : (0 : Real) < a.concentration := by
            rw [hfind] at ha
            simpa using ha
          rw [hfind] at hnone
          have hnone2 : (if (0 : Real) < a.concentration / 100 then
              some ({ paint := p, concentration := a.concentration / 100 } : Layer) else none) =
              (none : Option Layer) := hnone
          rw [if_pos ((div100_pos_iff a.concentration).mpr hc)] at hnone2
          exact Option.some_ne_none _ hnone2
    · intro h
      rw [h, resolveLayers]
      rfl
  · rw [simulateMix, simulateMix, hres]

theorem dedupGo_sublist (n : Nat) (l : List Recipe) (seen : List String) :
    (dedupGo n l seen).Sublist l := by
  induction l generalizing seen with
  | nil => simp [dedupGo]
  | cons r rest ih =>
    rw [dedupGo]
    by_cases hk : recipeKey r ∈ seen
    · rw [if_pos hk]
      by_cases h2 : n ≤ seen.length
      · rw [if_pos h2]
        exact List.nil_sublist _
      · rw [if_neg h2]
        exact (ih seen).cons r
    · rw [if_neg hk]
      by_cases h2 : n ≤ seen.length + 1
      · rw [if_pos h2]
        exact (List.nil_sublist rest).cons₂ r
      · rw [if_neg h2]
        exact (ih _).cons₂ r

theorem dedupGo_length_le (n : Nat) (l : List Recipe) (seen : List String)
    (h : seen.length < n) : (dedupGo n l seen).length ≤ n - seen.length := by
  induction l generalizing seen with
  | nil => simp [dedupGo]
  | cons r rest ih =>
    rw [dedupGo]
    by_cases hk : recipeKey r ∈ seen
    · rw [if_pos hk, if_neg (not_le.mpr h)]
      exact ih seen h
    · rw [if_neg hk]
      by_cases h2 : n ≤ seen.length + 1
      · rw [if_pos h2]
        simp only [List.length_cons, List.length_nil]
        omega
      · rw [if_neg h2]
        have hrec := ih (recipeKey r :: seen) (by simp only [List.length_cons]; omega)
        simp only [List.length_cons] at hrec ⊢
        omega

theorem dedupGo_key_not_mem (n : Nat) (l : List Recipe) (seen : List String) :
    ∀ r ∈ dedupGo n l seen, recipeKey r ∉ seen := by
  induction l generalizing seen with
  | nil => simp [dedupGo]
  | cons r0 rest ih =>
    rw [dedupGo]
    by_cases hk : recipeKey r0 ∈ seen
    · rw [if_pos hk]
      by_cases h2 : n ≤ seen.length
      · simp [h2]
      · rw [if_neg h2]
        exact ih seen
    · rw [if_neg hk]
      intro r hr
      rcases List.mem_cons.mp hr with rfl | hr2
      · exact hk
      · by_cases h2 : n ≤ seen.length + 1
        · rw [if_pos h2] at hr2
          simp at hr2
        · rw [if_neg h2] at hr2
          intro hmem
          exact ih (recipeKey r0 :: seen) r hr2 (List.mem_cons_of_mem _ hmem)

theorem dedupGo_keys_pairwise (n : Nat) (l : List Recipe) (seen : List String) :
    (dedupGo n l seen).Pairwise fun a b => recipeKey a ≠ recipeKey b := by
  induction l generalizing seen with
  | nil => simp [dedupGo]
  | cons r0 rest ih =>
    rw [dedupGo]
    by_cases hk : recipeKey r0 ∈ seen
    · rw [if_pos hk]
      by_cases h2 : n ≤ seen.length
      · simp [h2]
      · rw [if_neg h2]
        exact ih seen
    · rw [if_neg hk]
      by_cases h2 : n ≤ seen.length + 1
      · rw [if_pos h2]
        exact List.pairwise_singleton _ _
      · rw [if_neg h2]
        refine List.Pairwise.cons ?_ (ih _)
        intro b hb heq
        apply dedupGo_key_not_mem n rest (recipeKey r0 :: seen) b hb
        rw [← heq]
        exact List.mem_cons_self _ _

theorem dedupGo_min_distance (n : Nat) (l : List Recipe) (seen : List String)
    (hs : l.Pairwise fun a b => a.distance ≤ b.distance) :
    ∀ r ∈ dedupGo n l seen, ∀ r2 ∈ l, recipeKey r2 = recipeKey r →
      r.distance ≤ r2.distance := by
  induction l generalizing seen with
  | nil => simp [dedupGo]
  | cons r0 rest ih =>
    obtain ⟨hhead, htail⟩ := List.pairwise_cons.mp hs
    rw [dedupGo]
    by_cases hk : recipeKey r0 ∈ seen
    · rw [if_pos hk]
      by_cases h2 : n ≤ seen.length
      · simp [h2]
      · rw [if_neg h2]
        intro r hr r2 hr2 hkey
        have hnot := dedupGo_key_not_mem n rest seen r hr
        rcases List.mem_cons.mp hr2 with rfl | hr2b
        · exact absurd (hkey ▸ hk) hnot
        · exact ih seen htail r hr r2 hr2b hkey
    · rw [if_neg hk]
      intro r hr r2 hr2 hkey
      rcases List.mem_cons.mp hr with rfl | hrtail
      · rcases List.mem_cons.mp hr2 with rfl | hr2b
        · exact le_refl _
        · exact hhead r2 hr2b
      · by_cases h2 : n ≤ seen.length + 1
        · rw [if_pos h2] at hrtail
          simp at hrtail
        · rw [if_neg h2] at hrtail
          have hnot := dedupGo_key_not_mem n rest (recipeKey r0 :: seen) r hrtail
          rcases List.mem_cons.mp hr2 with rfl | hr2b
          · exfalso
            apply hnot
            rw [hkey]
            exact List.mem_cons_self _ _
          · exact ih _ htail r hrtail r2 hr2b hkey

theorem dedupGo_key_exists (n : Nat) (l : List Recipe) (seen : List String)
    (hn : seen.length + l.length < n) :
    ∀ r ∈ l, recipeKey r ∉ seen →
      ∃ r2 ∈ dedupGo n l seen, recipeKey r2 = recipeKey r := by
  induction l generalizing seen with
  | nil => simp
  | cons r0 rest ih =>
    intro r hr hnot
    simp only [List.length_cons] at hn
    rw [dedupGo]
    by_cases hk : recipeKey r0 ∈ seen
    · rw [if_pos hk, if_neg (show ¬ n ≤ seen.length by omega)]
      rcases List.mem_cons.mp hr with rfl | hr2
      · exact absurd hk hnot
      · exact ih seen (by omega) r hr2 hnot
    · rw [if_neg hk, if_neg (show ¬ n ≤ seen.length + 1 by omega)]
      by_cases hkey : recipeKey r = recipeKey r0
      · exact ⟨r0, List.mem_cons_self _ _, hkey.symm⟩
      · rcases List.mem_cons.mp hr with rfl | hr2
        · exact absurd rfl hkey
        · obtain ⟨r2, hr2m, hr2k⟩ := ih (recipeKey r0 :: seen)
            (by simp only [List.length_cons]; omega) r hr2
            (by
              intro hm
              rcases List.mem_cons.mp hm with h | h
              · exact hkey h
              · exact hnot h)
          exact ⟨r2, List.mem_cons_of_mem _ hr2m, hr2k⟩

theorem mergeSort_recipeLE_sorted (l : List Recipe) :
    (l.mergeSort recipeLE).Pairwise fun a b => a.distance ≤ b.distance := by
  have h := @List.sorted_mergeSort _ recipeLE
    (fun a b c hab hbc => by
      simp only [recipeLE, decide_eq_true_eq] at *
      exact le_trans hab hbc)
    (fun a b => by
      simp only [recipeLE, Bool.or_eq_true, decide_eq_true_eq]
      exact le_total a.distance b.distance)
    l
  exact h.imp fun hab => by simpa [recipeLE] using hab

/-- C4: for every target and every options record with positive
`topResults`, the returned recipe list is sorted ascending by distance
and its length is at most `topResults`. -/
theorem c4_sorted_and_truncated (targetHex : String) (opts : MixOptions)
    (h : 1 ≤ opts.topResults) :
    (findMixingRecipe targetHex opts).Pairwise (fun a b => a.distance ≤ b.distance) ∧
    (findMixingRecipe targetHex opts).length ≤ opts.topResults := by
  rw [findMixingRecipe, findMixingRecipeIn]
  by_cases hp : (poolFor PAINT_DATABASE opts.medium).length = 0
  · simp [hp]
  · rw [if_neg hp]
    constructor
    · exact List.Pairwise.sublist (dedupGo_sublist _ _ _) (mergeSort_recipeLE_sorted _)
    · have hlen := dedupGo_length_le opts.topResults
        ((resultsListIn PAINT_DATABASE targetHex opts).mergeSort recipeLE) []
        (by simpa using h)
      simpa using hlen

/-- C4 witness: a concrete search with topResults = 3. -/
theorem c4_sorted_and_truncated_witness :
    (findMixingRecipe "#336699" { medium := none, maxPaints := 3, topResults := 3 }).Pairwise
      (fun a b => a.distance ≤ b.distance) ∧
    (findMixingRecipe "#336699"
      { medium := none, maxPaints := 3, topResults := 3 }).length ≤ 3 :=
  c4_sorted_and_truncated "#336699" _ (by norm_num)

/- The multiset of pigment identifiers of a recipe. -/
def recipeIds (r : Recipe) : Multiset String :=
  ((r.paints.map fun rp => rp.paint.id) : List String)

theorem mergeSort_stringLE_sorted (l : List String) :
    List.Sorted (· ≤ ·) (l.mergeSort fun a b => decide (a ≤ b)) := by
  have h := @List.sorted_mergeSort _ (fun a b : String => decide (a ≤ b))
    (fun a b c hab hbc => by
      simp only [decide_eq_true_eq] at *
      exact le_trans hab hbc)
    (fun a b => by
      simp only [Bool.or_eq_true, decide_eq_true_eq]
      exact le_total a b)
    l
  exact h.imp fun hab => by simpa using hab

theorem recipeKey_eq_of_ids_eq {r1 r2 : Recipe} (h : recipeIds r1 = recipeIds r2) :
    recipeKey r1 = recipeKey r2 := by
  rw [recipeKey, recipeKey]
  congr 1
  apply List.eq_of_perm_of_sorted (r := (· ≤ · : String → String → Prop))
  · have hperm : (r1.paints.map fun rp => rp.paint.id).Perm
        (r2.paints.map fun rp => rp.paint.id) := by
      rw [recipeIds, recipeIds, Multiset.coe_eq_coe] at h
      exact h
    exact ((List.mergeSort_perm _ _).trans hperm).trans (List.mergeSort_perm _ _).symm
  · exact mergeSort_stringLE_sorted _
  · exact mergeSort_stringLE_sorted _

/-- C5: no two recipes returned by one search share the same multiset of
pigment identifiers, and each returned recipe's distance is minimal
among all evaluated candidates (over all passes) with that pigment set,
i.e. the first occurrence in the distance-sorted order is kept. -/
theorem c5_dedup_first_wins (db : List Paint) (targetHex : String) (opts : MixOptions) :
    (findMixingRecipeIn db targetHex opts).Pairwise
      (fun a b => recipeIds a ≠ recipeIds b) ∧
    ∀ r ∈ findMixingRecipeIn db targetHex opts,
      ∀ r2 ∈ resultsListIn db targetHex opts,
        recipeIds r2 = recipeIds r → r.distance ≤ r2.distance := by
  rw [findMixingRecipeIn]
  by_cases hp : (poolFor db opts.medium).length = 0
  · rw [if_pos hp]
    exact ⟨List.Pairwise.nil, by intro r hr; simp at hr⟩
  · rw [if_neg hp]
    constructor
    · exact (dedupGo_keys_pairwise _ _ _).imp
        fun hab hids => hab (recipeKey_eq_of_ids_eq hids)
    · intro r hr r2 hr2 hids
      exact dedupGo_min_distance opts.topResults _ [] (mergeSort_recipeLE_sorted _) r hr
        r2 (List.mem_mergeSort.mpr hr2) (recipeKey_eq_of_ids_eq hids)

theorem mergeSort_singleton {α : Type} (le : α → α → Bool) (a : α) :
    [a].mergeSort le = [a] :=
  List.perm_singleton.mp (List.mergeSort_perm [a] le)

theorem take_min_twelve_singleton {α : Type} (x : α) :
    [x].take (min 12 [x].length) = [x] := rfl

theorem pairPass_singleton (t : List Real) (c : Paint × Real) : pairPass t [c] = [] := by
  rw [pairPass, pairPass]
  simp

theorem resultsListIn_singleton (p : Paint) (hex : String) (opts : MixOptions)
    (hm : opts.medium = none) :
    resultsListIn [p] hex opts =
      [mkSingleRecipe ((hexToKS hex).map ksToReflectance) p] := by
  simp only [resultsListIn, hm, poolFor, List.map_singleton, mergeSort_singleton,
    take_min_twelve_singleton, pairPass_singleton, List.length_singleton]
  simp [pairPass_singleton]

theorem findMixingRecipeIn_singleton (p : Paint) (hex : String) (opts : MixOptions)
    (hm : opts.medium = none) :
    findMixingRecipeIn [p] hex opts =
      [mkSingleRecipe ((hexToKS hex).map ksToReflectance) p] := by
  simp only [findMixingRecipeIn, hm, poolFor]
  rw [if_neg (by simp : ¬([p] : List Paint).length = 0)]
  rw [resultsListIn_singleton p hex opts hm, mergeSort_singleton, dedupGo]
  rw [if_neg (List.not_mem_nil _)]
  by_cases h2 : opts.topResults ≤ List.length ([] : List String) + 1
  · rw [if_pos h2]
  · rw [if_neg h2, dedupGo]

/-- C5 witness: on a one-paint catalog the whole search returns the
single recipe, which trivially has pairwise-distinct pigment sets and is
kept at minimal distance for its set. -/
theorem c5_dedup_first_wins_witness :
    (findMixingRecipeIn [titaniumWhite] "#808080"
      { medium := none, maxPaints := 3, topResults := 3 }).Pairwise
        (fun a b => recipeIds a ≠ recipeIds b) ∧
    (mkSingleRecipe ((hexToKS "#808080").map ksToReflectance) titaniumWhite).distance ≤
      (mkSingleRecipe ((hexToKS "#808080").map ksToReflectance) titaniumWhite).distance := by
  constructor
  · exact (c5_dedup_first_wins [titaniumWhite] "#808080" _).1
  · refine (c5_dedup_first_wins [titaniumWhite] "#808080"
      { medium := none, maxPaints := 3, topResults := 3 }).2 _ ?_ _ ?_ rfl
    · rw [findMixingRecipeIn_singleton _ _ _ rfl]
      exact List.mem_singleton.mpr rfl
    · rw [resultsListIn_singleton _ _ _ rfl]
      exact List.mem_singleton.mpr rfl

theorem mkPairRecipe_eq (t : List Real) (p1 p2 : Paint) (rho : Real) :
    ∃ r, mkPairRecipe t p1 p2 rho = some r ∧
      r.paints.map (fun rp => rp.paint.id) = [p1.id, p2.id] := by
  have htc : totalConc [{ paint := p1, concentration := rho },
      { paint := p2, concentration := 1 - rho }] ≠ 0 := by
    simp [totalConc]
  have hmix : mixPaints [{ paint := p1, concentration := rho },
      { paint := p2, concentration := 1 - rho }] ≠ none := by
    rw [mixPaints, if_neg (by norm_num), if_neg htc]
    simp
  rcases hm : mixPaints [{ paint := p1, concentration := rho },
      { paint := p2, concentration := 1 - rho }] with _ | m
  · exact absurd hm hmix
  · rw [mkPairRecipe, hm, Option.map_some']
    exact ⟨_, rfl, rfl⟩

theorem pairPass_pair_mem (t : List Real) (l : List (Paint × Real)) (a b : Paint × Real)
    (ha : a ∈ l) (hb : b ∈ l) (hne : a ≠ b) :
    ∃ r ∈ pairPass t l,
      r.paints.map (fun rp => rp.paint.id) = [a.1.id, b.1.id] ∨
      r.paints.map (fun rp => rp.paint.id) = [b.1.id, a.1.id] := by
  induction l with
  | nil => simp at ha
  | cons c rest ih =>
    rw [pairPass]
    rcases List.mem_cons.mp ha with rfl | ha2
    · have hb2 : b ∈ rest := by
        rcases List.mem_cons.mp hb with rfl | hbr
        · exact absurd rfl hne
        · exact hbr
      obtain ⟨r, hr, hids⟩ := mkPairRecipe_eq t a.1 b.1 0.2
      refine ⟨r, List.mem_append_left _ ?_, Or.inl hids⟩
      refine List.mem_flatMap.mpr ⟨b, hb2, ?_⟩
      rw [pairRecipes]
      exact List.mem_filterMap.mpr ⟨0.2, by simp [pairSplits], hr⟩
    · rcases List.mem_cons.mp hb with rfl | hb2
      · obtain ⟨r, hr, hids⟩ := mkPairRecipe_eq t b.1 a.1 0.2
        refine ⟨r, List.mem_append_left _ ?_, Or.inr hids⟩
        refine List.mem_flatMap.mpr ⟨a, ha2, ?_⟩
        rw [pairRecipes]
        exact List.mem_filterMap.mpr ⟨0.2, by simp [pairSplits], hr⟩
      · obtain ⟨r, hr, hids⟩ := ih ha2 hb2
        exact ⟨r, List.mem_append_right _ hr, hids⟩

theorem pairPass_mem_length (t : List Real) (l : List (Paint × Real)) :
    ∀ r ∈ pairPass t l, r.paints.length = 2 := by
  induction l with
  | nil => simp [pairPass]
  | cons c rest ih =>
    intro r hr
    rw [pairPass] at hr
    rcases List.mem_append.mp hr with h | h
    · rcases List.mem_flatMap.mp h with ⟨c2, _, hr2⟩
      rw [pairRecipes] at hr2
      rcases List.mem_filterMap.mp hr2 with ⟨rho, _, hmk⟩
      rw [mkPairRecipe, Option.map_eq_some'] at hmk
      rcases hmk with ⟨m, _, hrm⟩
      rw [← hrm]
      rfl
    · exact ih r h

theorem pairRecipes_length_le (t : List Real) (p1 p2 : Paint) :
    (pairRecipes t p1 p2).length ≤ 5 := by
  rw [pairRecipes]
  calc (pairSplits.filterMap (mkPairRecipe t p1 p2)).length
      ≤ pairSplits.length := List.length_filterMap_le _ _
    _ = 5 := rfl

theorem pairPass_length_le (t : List Real) (l : List (Paint × Real)) :
    (pairPass t l).length ≤ 5 * (l.length * l.length) := by
  induction l with
  | nil => simp [pairPass]
  | cons c rest ih =>
    rw [pairPass, List.length_append]
    have h1 : (rest.flatMap fun c2 => pairRecipes t c.1 c2.1).length ≤ 5 * rest.length := by
      rw [List.length_flatMap]
      calc ((rest.map fun c2 => (pairRecipes t c.1 c2.1).length)).sum
          ≤ ((rest.map fun _ => 5)).sum := by
            apply List.sum_le_sum
            intro c2 _
            exact pairRecipes_length_le t c.1 c2.1
        _ = 5 * rest.length := by
            rw [List.map_const']
            rw [List.sum_replicate, smul_eq_mul, Nat.mul_comm]
    have h2 := ih
    simp only [List.length_cons]
    nlinarith

theorem recipeKey_mkSingleRecipe (t : List Real) (p : Paint) :
    recipeKey (mkSingleRecipe t p) = p.id := by
  rw [recipeKey]
  show String.intercalate "+" (([p.id] : List String).mergeSort fun a b => decide (a ≤ b)) = p.id
  rw [mergeSort_singleton]
  rfl

theorem mergeSort_pair_strings (x y : String) (hxy : x ≤ y) (l : List String)
    (hperm : l.Perm [x, y]) :
    (l.mergeSort fun a b => decide (a ≤ b)) = [x, y] := by
  apply List.eq_of_perm_of_sorted (r := (· ≤ · : String → String → Prop))
  · exact (List.mergeSort_perm _ _).trans hperm
  · exact mergeSort_stringLE_sorted _
  · refine List.sorted_cons.mpr ⟨?_, List.sorted_singleton _⟩
    intro b hb
    rw [List.mem_singleton] at hb
    rw [hb]
    exact hxy

/- Concrete pieces of the maxPaints = 1 counterexample search. -/
def wcPool : List Paint := poolFor PAINT_DATABASE (some "watercolor")

noncomputable def c2TargetRef : List Real := (hexToKS "#808080").map ksToReflectance

noncomputable def c2Scored : List (Paint × Real) :=
  (wcPool.map fun p => (p, spectralDistance c2TargetRef (paintRefl p))).mergeSort
    fun a b => decide (a.2 ≤ b.2)

theorem c2Scored_length : c2Scored.length = 10 := by
  rw [c2Scored, List.length_mergeSort, List.length_map]
  rfl

theorem resultsListIn_c2_eq :
    resultsListIn PAINT_DATABASE "#808080"
      { medium := some "watercolor", maxPaints := 1, topResults := 1000 } =
      wcPool.map (mkSingleRecipe c2TargetRef) ++ pairPass c2TargetRef c2Scored := by
  have htake : c2Scored.take (min 12 c2Scored.length) = c2Scored := by
    rw [c2Scored_length]
    exact List.take_of_length_le (by rw [c2Scored_length]; decide)
  calc (resultsListIn PAINT_DATABASE "#808080" { medium := some "watercolor", maxPaints := 1, topResults := 1000 })
      = wcPool.map (mkSingleRecipe c2TargetRef) ++
          pairPass c2TargetRef (c2Scored.take (min 12 c2Scored.length)) ++ [] := rfl
    _ = wcPool.map (mkSingleRecipe c2TargetRef) ++ pairPass c2TargetRef c2Scored := by
        rw [htake, List.append_nil]

theorem findMixingRecipe_c2_eq :
    findMixingRecipe "#808080"
      { medium := some "watercolor", maxPaints := 1, topResults := 1000 } =
      dedupGo 1000 ((resultsListIn PAINT_DATABASE "#808080"
        { medium := some "watercolor", maxPaints := 1, topResults := 1000 }).mergeSort
          recipeLE) [] := rfl

/-- C2 counterexample: with maxPaints = 1 (watercolor pool, topResults
1000) the returned list is not made of single-pigment recipes only —
the pair pass still runs and a two-pigment recipe is returned. -/
theorem c2_counterexample :
    ¬ ∀ r ∈ findMixingRecipe "#808080"
        { medium := some "watercolor", maxPaints := 1, topResults := 1000 },
      r.paints.length = 1 := by
  intro hall
  have hyo : yellowOchre ∈ wcPool :=
    List.mem_filter.mpr ⟨by simp [PAINT_DATABASE], rfl⟩
  have hind : indigoPaint ∈ wcPool :=
    List.mem_filter.mpr ⟨by simp [PAINT_DATABASE], rfl⟩
  have ha : (yellowOchre, spectralDistance c2TargetRef (paintRefl yellowOchre)) ∈ c2Scored :=
    List.mem_mergeSort.mpr (List.mem_map.mpr ⟨yellowOchre, hyo, rfl⟩)
  have hb : (indigoPaint, spectralDistance c2TargetRef (paintRefl indigoPaint)) ∈ c2Scored :=
    List.mem_mergeSort.mpr (List.mem_map.mpr ⟨indigoPaint, hind, rfl⟩)
  have hne : (yellowOchre, spectralDistance c2TargetRef (paintRefl yellowOchre)) ≠
      (indigoPaint, spectralDistance c2TargetRef (paintRefl indigoPaint)) := by
    intro h
    have hid := congrArg (fun z => z.1.id) h
    simp [yellowOchre, indigoPaint] at hid
  obtain ⟨r, hrp, hids⟩ := pairPass_pair_mem c2TargetRef c2Scored _ _ ha hb hne
  have hrres : r ∈ resultsListIn PAINT_DATABASE "#808080"
      { medium := some "watercolor", maxPaints := 1, topResults := 1000 } := by
    rw [resultsListIn_c2_eq]
    exact List.mem_append_right _ hrp
  have hrsorted : r ∈ (resultsListIn PAINT_DATABASE "#808080"
      { medium := some "watercolor", maxPaints := 1, topResults := 1000 }).mergeSort
        recipeLE := List.mem_mergeSort.mpr hrres
  have hbound : (0 : Nat) + ((resultsListIn PAINT_DATABASE "#808080"
      { medium := some "watercolor", maxPaints := 1, topResults := 1000 }).mergeSort
        recipeLE).length < 1000 := by
    rw [List.length_mergeSort, resultsListIn_c2_eq, List.length_append]
    have h1 : (wcPool.map (mkSingleRecipe c2TargetRef)).length = 10 := by
      rw [List.length_map]
      rfl
    have h2 : (pairPass c2TargetRef c2Scored).length ≤ 5 * (c2Scored.length * c2Scored.length) :=
      pairPass_length_le _ _
    rw [c2Scored_length] at h2
    omega
  obtain ⟨r2, hr2out, hr2key⟩ := dedupGo_key_exists 1000 _ [] (by simpa using hbound)
    r hrsorted (List.not_mem_nil _)
  have hr2mem : r2 ∈ findMixingRecipe "#808080"
      { medium := some "watercolor", maxPaints := 1, topResults := 1000 } := by
    rw [findMixingRecipe_c2_eq]
    exact hr2out
  have hlen1 : r2.paints.length = 1 := hall r2 hr2mem
  have hkr : recipeKey r = "indigo+yellow-ochre" := by
    rcases hids with h | h
    · rw [recipeKey, h, mergeSort_pair_strings "indigo" "yellow-ochre"
        (by rw [String.le_iff_toList_le]; decide) _ (by decide)]
      rfl
    · rw [recipeKey, h, mergeSort_pair_strings "indigo" "yellow-ochre"
        (by rw [String.le_iff_toList_le]; decide) _ (by decide)]
      rfl
  have hr2res : r2 ∈ resultsListIn PAINT_DATABASE "#808080"
      { medium := some "watercolor", maxPaints := 1, topResults := 1000 } :=
    List.mem_mergeSort.mp ((dedupGo_sublist _ _ _).subset hr2out)
  rw [resultsListIn_c2_eq] at hr2res
  rcases List.mem_append.mp hr2res with hsing | hpair
  · obtain ⟨p, hp, hpr⟩ := List.mem_map.mp hsing
    have hpid : p.id = "indigo+yellow-ochre" := by
      rw [← recipeKey_mkSingleRecipe c2TargetRef p, hpr, hr2key, hkr]
    have hnotin : ¬ ("indigo+yellow-ochre" ∈ wcPool.map fun p => p.id) := by decide
    exact hnotin (List.mem_map.mpr ⟨p, hp, hpid⟩)
  · have := pairPass_mem_length c2TargetRef c2Scored r2 hpair
    omega

/-- C2 (amended): maxPaints = 1 skips only the three-pigment pass; the
two-pigment pass is not skippable by configuration, so the returned
recipes are not restricted to single pigments — what holds is that
every returned recipe contains at most two pigments. -/
theorem c2_amended (targetHex : String) (medium : Option String) (n : Nat) :
    List.Forall (fun r => r.paints.length ≤ 2)
      (findMixingRecipe targetHex { medium := medium, maxPaints := 1, topResults := n }) := by
  rw [List.forall_iff_forall_mem]
  intro r hr
  rw [findMixingRecipe, findMixingRecipeIn] at hr
  by_cases hp : (poolFor PAINT_DATABASE medium).length = 0
  · rw [if_pos hp] at hr
    simp at hr
  · rw [if_neg hp] at hr
    have hr2 : r ∈ resultsListIn PAINT_DATABASE targetHex
        { medium := medium, maxPaints := 1, topResults := n } :=
      List.mem_mergeSort.mp ((dedupGo_sublist _ _ _).subset hr)
    rw [resultsListIn] at hr2
    rcases List.mem_append.mp hr2 with h12 | h3
    · rcases List.mem_append.mp h12 with h1 | h2
      · obtain ⟨p, _, hpr⟩ := List.mem_map.mp h1
        rw [← hpr]
        norm_num [mkSingleRecipe]
      · rw [pairPass_mem_length _ _ r h2]
    · rw [if_neg (fun hc => absurd hc.1 (by norm_num))] at h3
      simp at h3

end PaintMixer
